import Mathlib

/-!
Shallow embedding of the attested-ohttp-client repository
(`src/ohttp-client/src/lib.rs`, `src/ohttp-client/src/main.rs`,
`src/ohttp-client-cli/src/main.rs`, `src/pyohttp/src/lib.rs`).

Rust strings and `Vec<u8>` buffers are modelled as `List Nat` (the UTF-8
bytes; ASCII literals are produced with `strBytes`).  Fallible Rust code
(`Res<T> = Result<T, Box<dyn Error>>`) is modelled as `Except`.  A Rust
panic (`unwrap`, `expect`, `assert!`) is modelled as a dedicated
`panicked` error constructor, kept distinct from ordinary returned
errors.  External crates (`hex`, `serde_json`, `verifier`, `ohttp`,
`reqwest`, `infer`) are modelled either concretely from their documented
contract (`hex`) or as function parameters standing for the opaque
capability.
-/

deriving instance DecidableEq for Except

namespace AttestedOhttpClient

/-- The bytes of an ASCII/UTF-8 string literal, as natural numbers. -/
def strBytes (s : String) : List Nat := s.data.map Char.toNat

/-- The two-byte line terminator used throughout the textual HTTP writer. -/
def crlf : List Nat := strBytes "\r\n"

/-- The bytes of the decimal rendering of a natural number
(models Rust `write!(.., "{}", n)`). -/
def natBytes (n : Nat) : List Nat := strBytes (toString n)

/-! ## The `hex` crate (used by `HexArg::from_str` and `from_kms_config`)

`hex::decode` rejects inputs of odd length with `OddLength`, otherwise
scans byte pairs left to right, rejecting the first non-hex digit with
`InvalidHexCharacter` (carrying the byte and its index).  `hex::encode`
emits lowercase digits. -/

/-- Error type of `hex::decode` (`hex::FromHexError`). -/
inductive FromHexError where
  | invalidHexCharacter (b : Nat) (index : Nat)
  | oddLength
  deriving DecidableEq, Repr

/-- Value of one hex digit byte: `0-9`, `a-f`, `A-F` (both cases accepted). -/
def hexDigitVal (b : Nat) : Option Nat :=
  if 48 ≤ b ∧ b ≤ 57 then some (b - 48)
  else if 97 ≤ b ∧ b ≤ 102 then some (b - 97 + 10)
  else if 65 ≤ b ∧ b ≤ 70 then some (b - 65 + 10)
  else none

/-- Pairwise decoding pass of `hex::decode`, tracking the byte index for
the `InvalidHexCharacter` diagnostic. -/
def hexDecodePairs : List Nat → Nat → Except FromHexError (List Nat)
  | [], _ => .ok []
  | [b], i => .error (.invalidHexCharacter b i)
  | b1 :: b2 :: rest, i =>
    match hexDigitVal b1, hexDigitVal b2 with
    | some h, some l => (hexDecodePairs rest (i + 2)).map (fun bs => (16 * h + l) :: bs)
    | none, _ => .error (.invalidHexCharacter b1 i)
    | some _, none => .error (.invalidHexCharacter b2 (i + 1))

/-- `hex::decode`: odd length is rejected first, then pairs are decoded. -/
def hexDecode (s : List Nat) : Except FromHexError (List Nat) :=
  if s.length % 2 = 0 then hexDecodePairs s 0 else .error .oddLength

/-- Lowercase hex digit byte for a nibble (models `hex::encode`). -/
def hexDigitByteOf (n : Nat) : Nat := if n < 10 then 48 + n else 87 + n

/-- `hex::encode`: two lowercase digits per byte. -/
def hexEncode (bs : List Nat) : List Nat :=
  (bs.map (fun b => [hexDigitByteOf (b / 16), hexDigitByteOf (b % 16)])).flatten

/-- ASCII lowercasing of one byte (`A`-`Z` mapped down by 32). -/
def asciiLower (b : Nat) : Nat := if 65 ≤ b ∧ b ≤ 90 then b + 32 else b

/-- `impl FromStr for HexArg` (`src/ohttp-client/src/lib.rs:29-31`):
`hex::decode(s).map(HexArg)`; the wrapped value is just the byte vector. -/
def HexArg.from_str (s : List Nat) : Except FromHexError (List Nat) :=
  hexDecode s

/-! ## `str::split_once` and panic modelling

`split_once(sep)` splits at the first occurrence of the separator,
returning the parts before and after it, or `None` when the separator is
absent.  The code calls `.unwrap()` on its result, which panics on
`None`; a panic is modelled as a dedicated error constructor. -/

/-- `str::split_once`: split at the first occurrence of `sep`. -/
def splitOnce (sep : Nat) : List Nat → Option (List Nat × List Nat)
  | [] => none
  | b :: rest =>
    if b = sep then some ([], rest)
    else
      match splitOnce sep rest with
      | some (before, after) => some (b :: before, after)
      | none => none

/-- The message of the panic raised by `Option::unwrap` on `None`. -/
def unwrapPanicMsg : String := "called Option::unwrap on a None value"

/-! ## Multipart request builder
(`create_multipart_body`, `append_multipart_headers`,
`create_multipart_request`, `src/ohttp-client/src/lib.rs:62-148`)

`File::open` + `read_to_end` are modelled by a caller-supplied
`fileRead` capability, `infer::get(..).map(|k| k.mime_type())` by an
`inferGet` capability.  The random 32-character alphanumeric boundary
token is a parameter. -/

/-- Errors of the multipart body builder.  `panicked` models a Rust
panic (`unwrap` on a field without `=`, `expect("file type is unknown")`
when `infer::get` returns `None`).  `fileAccessError` wraps the
propagated `std::io::Error` of `File::open`/`read_to_end` (the spec's
`FileAccessError`).  `fileTypeError` is modelled from the spec taxonomy
(§7, `FileTypeError`): it is the error the spec assigns to an
un-inferrable file type, stated here so the claim can be settled; the
code embedding never produces it. -/
inductive MultipartError where
  | panicked (msg : String)
  | fileAccessError (e : String)
  | fileTypeError
  deriving DecidableEq, Repr

/-- The bytes written for one file part (before the file contents are
appended): `--{boundary}\r\nContent-Disposition: form-data;
name="file"; filename="{filename}"\r\nContent-Type: {mime}\r\n\r\n`
followed by the contents. -/
def filePart (boundary filename mime contents : List Nat) : List Nat :=
  strBytes "--" ++ boundary
    ++ strBytes "\r\nContent-Disposition: form-data; name=\"file\"; filename=\""
    ++ filename ++ strBytes "\"\r\nContent-Type: " ++ mime ++ strBytes "\r\n\r\n"
    ++ contents

/-- The bytes written for one non-file field part:
`\r\nContent-Disposition: form-data; name="{name}"\r\n\r\n{value}`. -/
def fieldPart (name value : List Nat) : List Nat :=
  strBytes "\r\nContent-Disposition: form-data; name=\"" ++ name
    ++ strBytes "\"\r\n\r\n" ++ value

/-- The bytes written after every part: `\r\n--{boundary}--\r\n`. -/
def partTerminator (boundary : List Nat) : List Nat :=
  strBytes "\r\n--" ++ boundary ++ strBytes "--\r\n"

/-- The `for field in fields` loop of `create_multipart_body`
(`src/ohttp-client/src/lib.rs:78-105`): split each field at the first
`=` (byte 61; `unwrap` panics when absent); a value starting with `@`
(byte 64) is a file reference whose remainder is the path; `File::open`
failure propagates, an un-inferrable type panics with
`file type is unknown`; otherwise a field part is emitted. -/
def multipartFields (fileRead : List Nat → Except String (List Nat))
    (inferGet : List Nat → Option (List Nat)) (boundary : List Nat) :
    List (List Nat) → Except MultipartError (List Nat)
  | [] => .ok []
  | field :: rest =>
    match splitOnce 61 field with
    | none => .error (.panicked unwrapPanicMsg)
    | some (name, value) =>
      if value.head? = some 64 then
        match fileRead (value.drop 1) with
        | .error e => .error (.fileAccessError e)
        | .ok contents =>
          match inferGet contents with
          | none => .error (.panicked "file type is unknown")
          | some mime =>
            (multipartFields fileRead inferGet boundary rest).map
              (fun tail =>
                filePart boundary (value.drop 1) mime contents
                  ++ partTerminator boundary ++ tail)
      else
        (multipartFields fileRead inferGet boundary rest).map
          (fun tail => fieldPart name value ++ partTerminator boundary ++ tail)

/-- `create_multipart_body` (`src/ohttp-client/src/lib.rs:62-108`): the
free-form body text is written first, unguarded by a boundary; with no
field list the body is returned as is, otherwise the parts of the field
loop follow. -/
def create_multipart_body (fileRead : List Nat → Except String (List Nat))
    (inferGet : List Nat → Option (List Nat)) (data : Option (List Nat))
    (fields : Option (List (List Nat))) (boundary : List Nat) :
    Except MultipartError (List Nat) :=
  let body := match data with
    | some d => d
    | none => []
  match fields with
  | none => .ok body
  | some fields =>
    (multipartFields fileRead inferGet boundary fields).map (fun parts => body ++ parts)

/-- `write_post_request_line` (`src/ohttp-client/src/lib.rs:45-48`):
appends `POST {target_path} HTTP/1.1\r\n`. -/
def write_post_request_line (request : List Nat) (target_path : List Nat) : List Nat :=
  request ++ strBytes "POST " ++ target_path ++ strBytes " HTTP/1.1\r\n"

/-- `append_headers` (`src/ohttp-client/src/lib.rs:51-59`): each
caller-supplied inner header appended verbatim, one per line. -/
def append_headers (request : List Nat) (headers : Option (List (List Nat))) : List Nat :=
  match headers with
  | none => request
  | some hs => request ++ (hs.map (fun h => h ++ crlf)).flatten

/-- `append_multipart_headers` (`src/ohttp-client/src/lib.rs:111-119`):
`Content-Type` with the boundary, then `Content-Length: {body_len}`,
then the blank line ending the header block. -/
def append_multipart_headers (request : List Nat) (boundary : List Nat)
    (body_len : Nat) : List Nat :=
  request ++ strBytes "Content-Type: multipart/form-data; boundary=" ++ boundary ++ crlf
    ++ strBytes "Content-Length: " ++ natBytes body_len ++ crlf ++ crlf

/-- `create_multipart_request` (`src/ohttp-client/src/lib.rs:122-148`):
boundary is `----` plus the sampled 32-character token
(`boundaryString` parameter); the multipart body is materialized first
and its exact length is what `append_multipart_headers` receives. -/
def create_multipart_request (fileRead : List Nat → Except String (List Nat))
    (inferGet : List Nat → Option (List Nat)) (boundaryString : List Nat)
    (target_path : List Nat) (headers : Option (List (List Nat)))
    (data : Option (List Nat)) (fields : Option (List (List Nat))) :
    Except MultipartError (List Nat) :=
  let boundary := strBytes "----" ++ boundaryString
  let request := write_post_request_line [] target_path
  let request := append_headers request headers
  match create_multipart_body fileRead inferGet data fields boundary with
  | .error e => .error e
  | .ok body => .ok (append_multipart_headers request boundary body.length ++ body)

/-- Two-step induction on byte lists, matching the pairwise recursion of
`hexDecodePairs`. -/
theorem twoStepInduction {p : List Nat → Prop} (h0 : p []) (h1 : ∀ b, p [b])
    (h2 : ∀ b1 b2 l, p l → p (b1 :: b2 :: l)) : ∀ l, p l
  | [] => h0
  | [b] => h1 b
  | b1 :: b2 :: l => h2 b1 b2 l (twoStepInduction h0 h1 h2 l)

/-- Re-encoding a decoded hex digit yields the ASCII-lowercased digit. -/
theorem hexDigitByteOf_val {b v : Nat} (h : hexDigitVal b = some v) :
    v < 16 ∧ hexDigitByteOf v = asciiLower b := by
  unfold hexDigitVal at h
  unfold hexDigitByteOf asciiLower
  split at h
  · injection h with hv
    subst hv
    refine ⟨by omega, ?_⟩
    split <;> split <;> omega
  · split at h
    · injection h with hv
      subst hv
      refine ⟨by omega, ?_⟩
      split <;> split <;> omega
    · split at h
      · injection h with hv
        subst hv
        refine ⟨by omega, ?_⟩
        split <;> split <;> omega
      · exact absurd h (by simp)

/-- On even-length all-hex input the pairwise decoder succeeds and
re-encoding its output lowercases the input. -/
theorem hexDecodePairs_roundtrip :
    ∀ l : List Nat, (∀ b ∈ l, (hexDigitVal b).isSome) → l.length % 2 = 0 →
      ∀ i, ∃ out, hexDecodePairs l i = .ok out ∧ hexEncode out = l.map asciiLower := by
  intro l
  induction l using twoStepInduction with
  | h0 =>
    intro _ _ i
    exact ⟨[], rfl, rfl⟩
  | h1 b =>
    intro _ hlen
    simp at hlen
  | h2 b1 b2 l ih =>
    intro hall hlen i
    have hb1 : (hexDigitVal b1).isSome := hall b1 (by simp)
    have hb2 : (hexDigitVal b2).isSome := hall b2 (by simp)
    obtain ⟨h, hh⟩ := Option.isSome_iff_exists.mp hb1
    obtain ⟨lo, hlo⟩ := Option.isSome_iff_exists.mp hb2
    have hltail : l.length % 2 = 0 := by
      simp only [List.length_cons] at hlen
      omega
    obtain ⟨out, hout, henc⟩ :=
      ih (fun b hb => hall b (by simp [hb])) hltail (i + 2)
    refine ⟨(16 * h + lo) :: out, ?_, ?_⟩
    · simp only [hexDecodePairs, hh, hlo, hout, Except.map]
    · obtain ⟨hhlt, hhenc⟩ := hexDigitByteOf_val hh
      obtain ⟨hlolt, hloenc⟩ := hexDigitByteOf_val hlo
      have hdiv : (16 * h + lo) / 16 = h := by omega
      have hmod : (16 * h + lo) % 16 = lo := by omega
      simp [hexEncode] at henc ⊢
      simp [hdiv, hmod, hhenc, hloenc, henc]

/-- If the pairwise decoder succeeds, every input byte was a hex digit. -/
theorem hexDecodePairs_ok_digits :
    ∀ (l : List Nat) (i : Nat) (out : List Nat), hexDecodePairs l i = .ok out →
      ∀ b ∈ l, (hexDigitVal b).isSome := by
  intro l
  induction l using twoStepInduction with
  | h0 =>
    intro _ _ _ b hb
    simp at hb
  | h1 b0 =>
    intro i out hout
    simp [hexDecodePairs] at hout
  | h2 b1 b2 l ih =>
    intro i out hout b hb
    rw [hexDecodePairs] at hout
    cases hh1 : hexDigitVal b1 with
    | none => simp [hh1] at hout
    | some h =>
      cases hh2 : hexDigitVal b2 with
      | none => simp [hh1, hh2] at hout
      | some lo =>
        simp only [hh1, hh2] at hout
        cases htail : hexDecodePairs l (i + 2) with
        | error e => simp [htail, Except.map] at hout
        | ok out2 =>
          rcases List.mem_cons.mp hb with hb | hb
          · subst hb
            simp [hh1]
          · rcases List.mem_cons.mp hb with hb | hb
            · subst hb
              simp [hh2]
            · exact ih (i + 2) out2 htail b hb

/-- **C9 (counterexample)**: the claim says decode-then-reencode is the
identity on every valid hex string; on the valid hex string `"AB"` the
decode (`HexArg::from_str`) succeeds with byte `0xAB = 171`, but
re-encoding yields the lowercase `"ab"`, not the original input. -/
theorem c9_roundtrip_identity_false :
    HexArg.from_str (strBytes "AB") = .ok [171]
      ∧ hexEncode [171] ≠ strBytes "AB"
      ∧ hexEncode [171] = strBytes "ab" := by
  decide

/-- **C9 (amended)**: for every byte string of hex digits with even
length, `HexArg::from_str` (= `hex::decode`) succeeds and re-encoding the
decoded bytes yields the ASCII-lowercased input (so the round trip is the
identity exactly on lowercase inputs); an odd-length input fails with
`OddLength`, and an input containing a non-hex byte fails with a
`FromHexError` (the spec's `InvalidEncoding`). -/
theorem c9_from_str_decode_reencode :
    ∀ s : List Nat,
      ((∀ b ∈ s, (hexDigitVal b).isSome) → s.length % 2 = 0 →
        ∃ bs, HexArg.from_str s = .ok bs ∧ hexEncode bs = s.map asciiLower)
      ∧ (s.length % 2 ≠ 0 → HexArg.from_str s = .error .oddLength)
      ∧ ((∃ b ∈ s, hexDigitVal b = none) → ∃ e, HexArg.from_str s = .error e) := by
  intro s
  refine ⟨?_, ?_, ?_⟩
  · intro hall hlen
    obtain ⟨out, hout, henc⟩ := hexDecodePairs_roundtrip s hall hlen 0
    exact ⟨out, by simp [HexArg.from_str, hexDecode, hlen, hout], henc⟩
  · intro hlen
    simp [HexArg.from_str, hexDecode, hlen]
  · rintro ⟨b, hb, hnone⟩
    by_cases hlen : s.length % 2 = 0
    · cases hres : HexArg.from_str s with
      | error e => exact ⟨e, rfl⟩
      | ok out =>
        rw [HexArg.from_str, hexDecode, if_pos hlen] at hres
        have := hexDecodePairs_ok_digits s 0 out hres b hb
        rw [hnone] at this
        simp at this
    · exact ⟨.oddLength, by simp [HexArg.from_str, hexDecode, hlen]⟩

/-- Witness for C9 (amended) at the concrete input `"AB"`. -/
theorem c9_from_str_decode_reencode_witness :
    ∃ bs, HexArg.from_str (strBytes "AB") = .ok bs
      ∧ hexEncode bs = (strBytes "AB").map asciiLower :=
  (c9_from_str_decode_reencode (strBytes "AB")).1 (by decide) (by decide)

/-- **C7 (counterexample)**: the claim says the builder fails with
`FileTypeError` when the file's content type cannot be inferred; on a
readable file whose bytes `infer` cannot classify the code instead
panics (`expect("file type is unknown")`), so no `FileTypeError` error
value is returned. -/
theorem c7_filetype_error_false :
    create_multipart_body (fun _ => .ok [0, 1, 2]) (fun _ => none) none
        (some [strBytes "f=@x"]) (strBytes "B")
      = .error (.panicked "file type is unknown")
    ∧ create_multipart_body (fun _ => .ok [0, 1, 2]) (fun _ => none) none
        (some [strBytes "f=@x"]) (strBytes "B")
      ≠ .error .fileTypeError := by
  decide

/-- **C7 (amended)**: for a form field whose value starts with the `@`
file-reference marker, the builder fails with `FileAccessError`
(propagating the I/O error) when the referenced path cannot be opened,
panics with `file type is unknown` (rather than returning a
`FileTypeError`) when the content type cannot be inferred, and on
success emits a file part whose `Content-Type` is the sniffed MIME
type. -/
theorem c7_file_field_handling (fileRead : List Nat → Except String (List Nat))
    (inferGet : List Nat → Option (List Nat)) (boundary field name value : List Nat)
    (rest : List (List Nat))
    (hsplit : splitOnce 61 field = some (name, value))
    (hat : value.head? = some 64) :
    (∀ e, fileRead (value.drop 1) = .error e →
      multipartFields fileRead inferGet boundary (field :: rest)
        = .error (.fileAccessError e))
    ∧ (∀ contents, fileRead (value.drop 1) = .ok contents → inferGet contents = none →
      multipartFields fileRead inferGet boundary (field :: rest)
        = .error (.panicked "file type is unknown"))
    ∧ (∀ contents mime tail, fileRead (value.drop 1) = .ok contents →
      inferGet contents = some mime →
      multipartFields fileRead inferGet boundary rest = .ok tail →
      multipartFields fileRead inferGet boundary (field :: rest)
        = .ok (filePart boundary (value.drop 1) mime contents
            ++ partTerminator boundary ++ tail)) := by
  refine ⟨?_, ?_, ?_⟩
  · intro e he
    rw [List.drop_one] at he
    simp [multipartFields, hsplit, hat, he]
  · intro contents hc hinfer
    rw [List.drop_one] at hc
    simp [multipartFields, hsplit, hat, hc, hinfer]
  · intro contents mime tail hc hinfer htail
    rw [List.drop_one] at hc
    simp [multipartFields, hsplit, hat, hc, hinfer, htail, List.drop_one, Except.map]

/-- Witness for C7 (amended): a single field `f=@x` on a filesystem
where `x` holds three bytes sniffed as `image/png`. -/
theorem c7_file_field_handling_witness :
    multipartFields (fun _ => .ok [1, 2, 3]) (fun _ => some (strBytes "image/png"))
        (strBytes "B") [strBytes "f=@x"]
      = .ok (filePart (strBytes "B") (strBytes "x") (strBytes "image/png") [1, 2, 3]
          ++ partTerminator (strBytes "B") ++ []) :=
  (c7_file_field_handling (fun _ => .ok [1, 2, 3])
      (fun _ => some (strBytes "image/png")) (strBytes "B") (strBytes "f=@x")
      (strBytes "f") (strBytes "@x") [] (by decide) (by decide)).2.2
    [1, 2, 3] (strBytes "image/png") [] rfl rfl rfl

/-- **C8**: whenever the multipart body materializes to `body`, the
produced request is the request line and inner headers followed by the
multipart header block whose `Content-Length` value is exactly
`body.length`, followed by precisely those `body` bytes — the declared
length equals the byte length of the body that follows the header
block. -/
theorem c8_content_length_exact (fileRead : List Nat → Except String (List Nat))
    (inferGet : List Nat → Option (List Nat)) (boundaryString target_path : List Nat)
    (headers : Option (List (List Nat))) (data : Option (List Nat))
    (fields : Option (List (List Nat))) (body : List Nat)
    (hbody : create_multipart_body fileRead inferGet data fields
        (strBytes "----" ++ boundaryString) = .ok body) :
    create_multipart_request fileRead inferGet boundaryString target_path headers data fields
      = .ok (append_headers (write_post_request_line [] target_path) headers
          ++ strBytes "Content-Type: multipart/form-data; boundary="
          ++ (strBytes "----" ++ boundaryString) ++ crlf
          ++ strBytes "Content-Length: " ++ natBytes body.length ++ crlf ++ crlf
          ++ body) := by
  simp [create_multipart_request, hbody, append_multipart_headers]

/-- Witness for C8: body text `hello`, no form fields; the declared
`Content-Length` is `5` and the five body bytes follow the blank
line. -/
theorem c8_content_length_exact_witness :
    create_multipart_request (fun _ => .error "io") (fun _ => none) (strBytes "X")
        (strBytes "/predict") none (some (strBytes "hello")) none
      = .ok (append_headers (write_post_request_line [] (strBytes "/predict")) none
          ++ strBytes "Content-Type: multipart/form-data; boundary="
          ++ (strBytes "----" ++ strBytes "X") ++ crlf
          ++ strBytes "Content-Length: " ++ natBytes (strBytes "hello").length ++ crlf ++ crlf
          ++ strBytes "hello") :=
  c8_content_length_exact (fun _ => .error "io") (fun _ => none) (strBytes "X")
    (strBytes "/predict") none (some (strBytes "hello")) none (strBytes "hello") rfl

/-! ## Outer transport adapter and request session
(`post_request`, `encapsulate_and_send`, `src/ohttp-client/src/lib.rs:273-386`,
and the standalone binary variant `src/ohttp-client/src/main.rs:326-376`)

The `reqwest` send is a caller-supplied capability
`send url headers body`; `Ok` means a response was received (any status),
`Err` a transport-level failure. -/

/-- The outer transport reply: status, header map, body chunk stream. -/
structure OuterResponse where
  status : Nat
  headers : List (List Nat × List Nat)
  chunks : List (List Nat)
  deriving DecidableEq, Repr

/-- Errors of the outer request path.  `panicked` models the
`split_once(':').unwrap()` panic on a malformed outer header.
`invalidHeaderSyntax` is modelled from the spec taxonomy (§7,
`InvalidHeaderSyntax`): the error the spec assigns to a malformed outer
header, stated here so the claim can be settled; the code embedding
never produces it.  `transportError` wraps a send failure,
`httpStatusFailure` is the `main.rs` variant's error for a non-2xx
status, `encapsulationError`/`decapsulationError` wrap the
ohttp-capability failures. -/
inductive PostError where
  | panicked (msg : String)
  | invalidHeaderSyntax
  | transportError (e : String)
  | httpStatusFailure (status : Nat)
  | encapsulationError (e : String)
  | decapsulationError (e : String)
  deriving DecidableEq, Repr

/-- The fixed outer header `content-type: message/ohttp-chunked-req`. -/
def contentTypeHeader : List Nat × List Nat :=
  (strBytes "content-type", strBytes "message/ohttp-chunked-req")

/-- The outer-header loop (`src/ohttp-client/src/lib.rs:285-292`): each
entry split at the first `:` (byte 58) into name and value, applied in
caller-supplied order; `unwrap` panics when the colon is absent. -/
def buildOuterHeaders : List (List Nat) → Except PostError (List (List Nat × List Nat))
  | [] => .ok []
  | h :: rest =>
    match splitOnce 58 h with
    | none => .error (.panicked unwrapPanicMsg)
    | some kv => (buildOuterHeaders rest).map (fun tail => kv :: tail)

/-- The `if let Some(outer_headers)` guard around the header loop. -/
def outerHeadersBuilt (outer_headers : Option (List (List Nat))) :
    Except PostError (List (List Nat × List Nat)) :=
  match outer_headers with
  | none => .ok []
  | some hs => buildOuterHeaders hs

/-- `post_request` (`src/ohttp-client/src/lib.rs:273-309`): build the
header list (panicking on a malformed entry before the network send),
send, and return the received response unconditionally — a non-2xx
status is only logged, never turned into an error. -/
def post_request
    (send : List Nat → List (List Nat × List Nat) → List Nat → Except String OuterResponse)
    (url : List Nat) (outer_headers : Option (List (List Nat)))
    (enc_request : List Nat) : Except PostError OuterResponse :=
  match outerHeadersBuilt outer_headers with
  | .error e => .error e
  | .ok hdrs =>
    match send url (contentTypeHeader :: hdrs) enc_request with
    | .ok response => .ok response
    | .error e => .error (.transportError e)

/-- The standalone binary's `post_request`
(`src/ohttp-client/src/main.rs:326-376`): same header handling, but a
received response with a non-2xx status (`!status.is_success()`, i.e.
outside `200..=299`) is turned into an error instead of being
returned. -/
def main_post_request
    (send : List Nat → List (List Nat × List Nat) → List Nat → Except String OuterResponse)
    (url : List Nat) (outer_headers : Option (List (List Nat)))
    (enc_request : List Nat) : Except PostError OuterResponse :=
  match outerHeadersBuilt outer_headers with
  | .error e => .error e
  | .ok hdrs =>
    match send url (contentTypeHeader :: hdrs) enc_request with
    | .ok response =>
      if 200 ≤ response.status ∧ response.status ≤ 299 then .ok response
      else .error (.httpStatusFailure response.status)
    | .error e => .error (.transportError e)

/-- `OhttpClient::encapsulate_and_send`
(`src/ohttp-client/src/lib.rs:349-386`): encapsulate the binary request
(fatal `EncapsulationError` on failure), post it via `post_request`,
and hand any received response together with the response context to
`decapsulate_response` (the streaming decapsulation adapter, a
capability parameter here), returning its result. -/
def encapsulate_and_send {Ctx Resp : Type}
    (encapsulate : List Nat → Except String (List Nat × Ctx))
    (send : List Nat → List (List Nat × List Nat) → List Nat → Except String OuterResponse)
    (decapsulate_response : OuterResponse → Ctx → Except String Resp)
    (url : List Nat) (headers : Option (List (List Nat)))
    (bhttp_request : List Nat) : Except PostError Resp :=
  match encapsulate bhttp_request with
  | .error e => .error (.encapsulationError e)
  | .ok (enc_request, ohttp_response) =>
    match post_request send url headers enc_request with
    | .error e => .error e
    | .ok response =>
      match decapsulate_response response ohttp_response with
      | .ok r => .ok r
      | .error e => .error (.decapsulationError e)

/-- **C5**: whenever the outer transport receives a response — whatever
its HTTP status, 2xx or not — `encapsulate_and_send` hands that response
together with the response context to the streaming decapsulation
adapter and returns the decapsulated wrapper; no status value makes it
return an error by itself. -/
theorem c5_response_always_decapsulated {Ctx Resp : Type}
    (encapsulate : List Nat → Except String (List Nat × Ctx))
    (send : List Nat → List (List Nat × List Nat) → List Nat → Except String OuterResponse)
    (decapsulate_response : OuterResponse → Ctx → Except String Resp)
    (url : List Nat) (headers : Option (List (List Nat))) (bhttp enc : List Nat)
    (ctx : Ctx) (hdrs : List (List Nat × List Nat)) (response : OuterResponse)
    (henc : encapsulate bhttp = .ok (enc, ctx))
    (hhdr : outerHeadersBuilt headers = .ok hdrs)
    (hsend : send url (contentTypeHeader :: hdrs) enc = .ok response) :
    encapsulate_and_send encapsulate send decapsulate_response url headers bhttp
      = Except.mapError PostError.decapsulationError (decapsulate_response response ctx) := by
  simp only [encapsulate_and_send, post_request, henc, hhdr, hsend]
  cases hdec : decapsulate_response response ctx <;> simp [Except.mapError, hdec]

/-- Witness for C5: a response with outer status `404` is still handed
to the decapsulation adapter, and the exchange returns its result. -/
theorem c5_response_always_decapsulated_witness :
    encapsulate_and_send (fun b => .ok (b, ())) (fun _ _ _ => .ok ⟨404, [], [[7]]⟩)
        (fun r _ => .ok r.status) (strBytes "u") none (strBytes "req")
      = .ok 404 :=
  (c5_response_always_decapsulated (fun b => .ok (b, ()))
      (fun _ _ _ => .ok ⟨404, [], [[7]]⟩) (fun r _ => .ok r.status)
      (strBytes "u") none (strBytes "req") (strBytes "req") () []
      ⟨404, [], [[7]]⟩ rfl rfl rfl).trans rfl

/-- By contrast with the library pipeline, the standalone binary
variant of `post_request` (`src/ohttp-client/src/main.rs:348-375`)
turns a received non-2xx response into an error, so in that binary the
response is not decapsulated; `OhttpClient::encapsulate_and_send` never
calls this variant. -/
theorem main_post_request_rejects_non2xx
    (send : List Nat → List (List Nat × List Nat) → List Nat → Except String OuterResponse)
    (url : List Nat) (headers : Option (List (List Nat))) (enc : List Nat)
    (hdrs : List (List Nat × List Nat)) (response : OuterResponse)
    (hhdr : outerHeadersBuilt headers = .ok hdrs)
    (hsend : send url (contentTypeHeader :: hdrs) enc = .ok response)
    (hstatus : ¬(200 ≤ response.status ∧ response.status ≤ 299)) :
    main_post_request send url headers enc
      = .error (.httpStatusFailure response.status) := by
  simp [main_post_request, hhdr, hsend, hstatus]

/-- A header list with an entry lacking a colon makes the header loop
panic (the `unwrap` on `split_once`). -/
theorem buildOuterHeaders_malformed :
    ∀ headers : List (List Nat), (∃ h ∈ headers, splitOnce 58 h = none) →
      buildOuterHeaders headers = .error (.panicked unwrapPanicMsg) := by
  intro headers
  induction headers with
  | nil =>
    rintro ⟨h, hh, _⟩
    simp at hh
  | cons hd tl ih =>
    rintro ⟨h, hh, hnone⟩
    rcases List.mem_cons.mp hh with rfl | hmem
    · simp [buildOuterHeaders, hnone]
    · rw [buildOuterHeaders]
      cases hsp : splitOnce 58 hd with
      | none => rfl
      | some kv =>
        rw [ih ⟨h, hmem, hnone⟩]
        rfl

/-- When every entry has a colon, the header loop splits each at its
first colon, in caller-supplied order. -/
theorem buildOuterHeaders_wellformed :
    ∀ headers : List (List Nat), (∀ h ∈ headers, (splitOnce 58 h).isSome) →
      buildOuterHeaders headers
        = .ok (headers.map (fun h => (splitOnce 58 h).getD ([], []))) := by
  intro headers
  induction headers with
  | nil =>
    intro _
    rfl
  | cons hd tl ih =>
    intro hall
    obtain ⟨kv, hkv⟩ := Option.isSome_iff_exists.mp (hall hd (by simp))
    rw [buildOuterHeaders, hkv, ih (fun h hm => hall h (by simp [hm]))]
    simp [hkv, Except.map]

/-- **C6 (counterexample)**: the claim says a header entry with no colon
makes the outer request builder fail with `InvalidHeaderSyntax`; on the
list `["Authorization: Bearer abc", "NoColonHere"]` the code instead
panics (`split_once(':').unwrap()` on `None`), so no
`InvalidHeaderSyntax` error value is returned. -/
theorem c6_invalid_header_syntax_false :
    post_request (fun _ _ _ => .ok ⟨200, [], []⟩) (strBytes "u")
        (some [strBytes "Authorization: Bearer abc", strBytes "NoColonHere"]) []
      = .error (.panicked unwrapPanicMsg)
    ∧ post_request (fun _ _ _ => .ok ⟨200, [], []⟩) (strBytes "u")
        (some [strBytes "Authorization: Bearer abc", strBytes "NoColonHere"]) []
      ≠ .error .invalidHeaderSyntax := by
  decide

/-- **C6 (amended)**: an outer-header list containing an entry with no
colon makes `post_request` panic before any network call (the result is
the same panic for every transport `send`, which is therefore never
consulted); when every entry is well-formed, each is split at its first
colon into name and value, in caller-supplied order. -/
theorem c6_outer_header_handling (url enc : List Nat) (headers : List (List Nat)) :
    ((∃ h ∈ headers, splitOnce 58 h = none) →
      ∀ send, post_request send url (some headers) enc
        = .error (.panicked unwrapPanicMsg))
    ∧ ((∀ h ∈ headers, (splitOnce 58 h).isSome) →
      buildOuterHeaders headers
        = .ok (headers.map (fun h => (splitOnce 58 h).getD ([], [])))) := by
  constructor
  · intro hex send
    rw [post_request, outerHeadersBuilt, buildOuterHeaders_malformed headers hex]
  · exact buildOuterHeaders_wellformed headers

/-- Witness for C6 (amended): the malformed list `["NoColonHere"]`
produces the unwrap panic for a concrete transport. -/
theorem c6_outer_header_handling_witness :
    post_request (fun _ _ _ => .ok ⟨200, [], []⟩) (strBytes "u")
        (some [strBytes "NoColonHere"]) []
      = .error (.panicked unwrapPanicMsg) :=
  (c6_outer_header_handling (strBytes "u") [] [strBytes "NoColonHere"]).1
    ⟨strBytes "NoColonHere", by simp, by decide⟩ (fun _ _ _ => .ok ⟨200, [], []⟩)

/-! ## KMS polling (`get_kms_config`, `src/ohttp-client/src/lib.rs:166-206`)

The server is modelled as a function from the attempt number to the
round-trip outcome of `client.get(url).send().await`.  The
`error_for_status()?` call turns a 4xx/5xx response into a transport
error before the status match.  Each 202-backoff sleep
(`Duration::from_secs(1)`) is recorded as the entry `1` in a sleep
trace. -/

/-- One KMS HTTP response: status code and body bytes. -/
structure KmsResponse where
  status : Nat
  body : List Nat
  deriving DecidableEq, Repr

/-- Outcome of one `send().await`: transport failure or a response. -/
inductive RoundTrip where
  | failure (e : String)
  | response (r : KmsResponse)
  deriving DecidableEq, Repr

/-- Errors of `get_kms_config`.  `requestError` wraps a failed send;
`httpStatusError` is the error `Response::error_for_status` raises for a
4xx/5xx status; `kmsTimeout` is the string error
`Max retries reached, giving up. Cannot reach key management service`;
`unexpectedStatus` is `KMS returned unexpected {e} status code.`;
`panicked` models the `assert!(!body.is_empty())` panic. -/
inductive KmsPollError where
  | requestError (e : String)
  | httpStatusError (status : Nat)
  | kmsTimeout
  | unexpectedStatus (status : Nat)
  | panicked (msg : String)
  deriving DecidableEq, Repr

/-- The polling `loop` of `get_kms_config`: `retries` starts at 0 and a
202 response increments it and sleeps one second while
`retries < maxRetries`, failing with the timeout error once the ceiling
is reached; a 200 response returns the (asserted non-empty) body; any
other status surviving `error_for_status` fails with the
unexpected-status error.  The second component is the trace of backoff
sleeps (in seconds). -/
def getKmsLoop (polls : Nat → RoundTrip) (maxRetries retries attempt : Nat)
    (sleeps : List Nat) : Except KmsPollError (List Nat) × List Nat :=
  match polls attempt with
  | .failure e => (.error (.requestError e), sleeps)
  | .response r =>
    if 400 ≤ r.status ∧ r.status ≤ 599 then (.error (.httpStatusError r.status), sleeps)
    else if r.status = 202 then
      if h : retries < maxRetries then
        getKmsLoop polls maxRetries (retries + 1) (attempt + 1) (sleeps ++ [1])
      else (.error .kmsTimeout, sleeps)
    else if r.status = 200 then
      if r.body = [] then (.error (.panicked "assertion failed: !body.is_empty()"), sleeps)
      else (.ok r.body, sleeps)
    else (.error (.unexpectedStatus r.status), sleeps)
  termination_by maxRetries - retries
  decreasing_by omega

/-- `get_kms_config`: the poll loop with `max_retries = 3`, starting
with no retries used and an empty sleep trace. -/
def get_kms_config (polls : Nat → RoundTrip) :
    Except KmsPollError (List Nat) × List Nat :=
  getKmsLoop polls 3 0 0 []

/-- **C3**: every 202 answer below the ceiling of 3 retries causes one
1-second backoff and a retry; a server answering 202 three times and
then 200 yields the body after exactly three backoff sleeps, and a
server answering 202 forever fails with the timeout error after the
same three retries. -/
theorem c3_retry_policy (body : List Nat) (hbody : body ≠ []) :
    get_kms_config (fun i => if i < 3 then .response ⟨202, []⟩ else .response ⟨200, body⟩)
      = (.ok body, [1, 1, 1])
    ∧ get_kms_config (fun _ => .response ⟨202, []⟩)
      = (.error .kmsTimeout, [1, 1, 1]) := by
  constructor
  · simp [get_kms_config, getKmsLoop, hbody]
  · simp [get_kms_config, getKmsLoop]

/-- Witness for C3 at the one-byte body `[42]`. -/
theorem c3_retry_policy_witness :
    get_kms_config (fun i => if i < 3 then .response ⟨202, []⟩ else .response ⟨200, [42]⟩)
      = (.ok [42], [1, 1, 1])
    ∧ get_kms_config (fun _ => .response ⟨202, []⟩)
      = (.error .kmsTimeout, [1, 1, 1]) :=
  c3_retry_policy [42] (by decide)

/-- **C4 (counterexample)**: the claim says every response status other
than 200/202 fails with the unexpected-status error carrying the code;
a 404 response is instead intercepted by `error_for_status()?` and
fails as a transport-layer status error, so no
`KMS returned unexpected 404 status code.` error is produced. -/
theorem c4_unexpected_status_false :
    get_kms_config (fun _ => .response ⟨404, []⟩)
      = (.error (.httpStatusError 404), [])
    ∧ get_kms_config (fun _ => .response ⟨404, []⟩)
      ≠ (.error (.unexpectedStatus 404), []) := by
  have h : get_kms_config (fun _ => .response ⟨404, []⟩)
      = (.error (.httpStatusError 404), []) := by
    simp [get_kms_config, getKmsLoop]
  exact ⟨h, by rw [h]; decide⟩

/-- **C4 (amended)**: from any state of the polling loop, a response
whose status is neither 200 nor 202 ends the loop at once — no retry, no
further sleep: a 4xx/5xx status fails with the `error_for_status`
transport-layer status error, and any other such status fails with the
unexpected-status error carrying the code. -/
theorem c4_other_status_no_retry (polls : Nat → RoundTrip)
    (maxRetries retries attempt : Nat) (sleeps : List Nat) (r : KmsResponse)
    (hpoll : polls attempt = .response r)
    (h200 : r.status ≠ 200) (h202 : r.status ≠ 202) :
    (¬(400 ≤ r.status ∧ r.status ≤ 599) →
      getKmsLoop polls maxRetries retries attempt sleeps
        = (.error (.unexpectedStatus r.status), sleeps))
    ∧ ((400 ≤ r.status ∧ r.status ≤ 599) →
      getKmsLoop polls maxRetries retries attempt sleeps
        = (.error (.httpStatusError r.status), sleeps)) := by
  constructor
  · intro hrange
    rw [getKmsLoop]
    simp [hpoll, h200, h202, hrange]
  · intro hrange
    rw [getKmsLoop]
    simp [hpoll, hrange]

/-- Witness for C4 (amended): a 301 response at the first poll ends the
call with `unexpectedStatus 301` and no retry. -/
theorem c4_other_status_no_retry_witness :
    getKmsLoop (fun _ => .response ⟨301, []⟩) 3 0 0 []
      = (.error (.unexpectedStatus 301), []) :=
  (c4_other_status_no_retry (fun _ => .response ⟨301, []⟩) 3 0 0 []
      ⟨301, []⟩ rfl (by decide) (by decide)).1 (by decide)

/-! ## KMS key-configuration provider
(`KmsKeyConfiguration`, `ClientRequest::from_kms_config`,
`src/ohttp-client/src/lib.rs:208-249`, `OhttpClientBuilder::build`,
`src/ohttp-client/src/lib.rs:431-482`)

`serde_json::from_str`, `verifier::verify` and
`ohttp::ClientRequest::from_encoded_config(_list)` are external
capabilities, passed as function parameters. -/

/-- One KMS-published entry: `publicKey` (hex-encoded key config, field
`key_config`) and the attestation `receipt`. -/
structure KmsKeyConfiguration where
  key_config : List Nat
  receipt : List Nat
  deriving DecidableEq, Repr

/-- The model of `ohttp::ClientRequest`: an opaque value produced by the
encapsulation capability from decoded configuration bytes. -/
structure ClientRequest where
  encodedConfig : List Nat
  deriving DecidableEq, Repr

/-- Errors of `from_kms_config`: the propagated `serde_json` error, the
`No KMS configuration found` error, the propagated verifier diagnostic
(the spec's `ReceiptVerificationFailed`), the propagated `hex` error
(the spec's `InvalidEncoding`), and a propagated `ohttp` error. -/
inductive KmsError where
  | parseError (e : String)
  | noKmsConfiguration
  | receiptVerificationFailed (diag : String)
  | invalidEncoding (e : FromHexError)
  | ohttpError (e : String)
  deriving DecidableEq, Repr

/-- The straight-line tail of `from_kms_config` applied to the selected
entry (`src/ohttp-client/src/lib.rs:230-237`): verify the receipt
against the trusted certificate (failure propagates the verifier's
diagnostic), hex-decode the `key_config` field, and hand the decoded
bytes to `ClientRequest::from_encoded_config`. -/
def processKmsEntry (verify : List Nat → List Nat → Except String Unit)
    (from_encoded_config : List Nat → Except String ClientRequest)
    (kms_config : KmsKeyConfiguration) (cert : List Nat) :
    Except KmsError ClientRequest :=
  match verify kms_config.receipt cert with
  | .error e => .error (.receiptVerificationFailed e)
  | .ok _ =>
    match hexDecode kms_config.key_config with
    | .error e => .error (.invalidEncoding e)
    | .ok encoded_config =>
      match from_encoded_config encoded_config with
      | .error e => .error (.ohttpError e)
      | .ok req => .ok req

/-- `ClientRequest::from_kms_config`
(`src/ohttp-client/src/lib.rs:224-238`): parse the body into an array of
entries, `pop()` the last one (`getLast?`; `No KMS configuration found`
when the array is empty), then verify and decode that entry. -/
def ClientRequest.from_kms_config
    (parseKmsJson : List Nat → Except String (List KmsKeyConfiguration))
    (verify : List Nat → List Nat → Except String Unit)
    (from_encoded_config : List Nat → Except String ClientRequest)
    (config cert : List Nat) : Except KmsError ClientRequest :=
  match parseKmsJson config with
  | .error e => .error (.parseError e)
  | .ok kms_configs =>
    match kms_configs.getLast? with
    | none => .error .noKmsConfiguration
    | some kms_config => processKmsEntry verify from_encoded_config kms_config cert

/-- **C1**: when the verifier rejects the selected (last) entry's
receipt, `from_kms_config` fails with the receipt-verification error
carrying the verifier's diagnostic — for every key-construction
capability, so the key is never constructed, however well-formed the
entry's hex may be; conversely a returned client request implies the
verifier accepted the selected entry's receipt against the trusted
certificate. -/
theorem c1_receipt_verification_gate
    (parseKmsJson : List Nat → Except String (List KmsKeyConfiguration))
    (verify : List Nat → List Nat → Except String Unit)
    (config cert : List Nat) :
    (∀ l entry diag, parseKmsJson config = .ok l → l.getLast? = some entry →
      verify entry.receipt cert = .error diag →
      ∀ from_encoded_config,
        ClientRequest.from_kms_config parseKmsJson verify from_encoded_config config cert
          = .error (.receiptVerificationFailed diag))
    ∧ (∀ from_encoded_config req,
      ClientRequest.from_kms_config parseKmsJson verify from_encoded_config config cert
        = .ok req →
      ∃ l entry, parseKmsJson config = .ok l ∧ l.getLast? = some entry
        ∧ verify entry.receipt cert = .ok ()
        ∧ ∃ enc, hexDecode entry.key_config = .ok enc
            ∧ from_encoded_config enc = .ok req) := by
  constructor
  · intro l entry diag hparse hlast hver fec
    simp [ClientRequest.from_kms_config, hparse, hlast, processKmsEntry, hver]
  · intro fec req hok
    rw [ClientRequest.from_kms_config] at hok
    cases hparse : parseKmsJson config with
    | error e => simp [hparse] at hok
    | ok l =>
      simp only [hparse] at hok
      cases hlast : l.getLast? with
      | none => simp [hlast] at hok
      | some entry =>
        simp only [hlast, processKmsEntry] at hok
        refine ⟨l, entry, rfl, hlast, ?_⟩
        cases hver : verify entry.receipt cert with
        | error e => simp [hver] at hok
        | ok u =>
          cases u
          refine ⟨rfl, ?_⟩
          cases hdec : hexDecode entry.key_config with
          | error e => simp [hver, hdec] at hok
          | ok enc =>
            simp only [hver, hdec] at hok
            cases hfec : fec enc with
            | error e => simp [hfec] at hok
            | ok req2 =>
              simp only [hfec] at hok
              cases hok
              exact ⟨enc, rfl, hfec⟩

/-- Witness for C1: a one-entry array whose receipt the verifier
rejects with diagnostic `receipt invalid`; the well-formed hex
`aabb` is never decoded into a key. -/
theorem c1_receipt_verification_gate_witness :
    ClientRequest.from_kms_config
        (fun _ => .ok [⟨strBytes "aabb", strBytes "r"⟩])
        (fun _ _ => .error "receipt invalid")
        (fun c => .ok ⟨c⟩) (strBytes "{}") (strBytes "cert")
      = .error (.receiptVerificationFailed "receipt invalid") :=
  (c1_receipt_verification_gate (fun _ => .ok [⟨strBytes "aabb", strBytes "r"⟩])
      (fun _ _ => .error "receipt invalid") (strBytes "{}") (strBytes "cert")).1
    [⟨strBytes "aabb", strBytes "r"⟩] ⟨strBytes "aabb", strBytes "r"⟩
    "receipt invalid" rfl rfl rfl (fun c => .ok ⟨c⟩)

/-- **C2**: on a parsed array with at least one entry `from_kms_config`
verifies and decodes exactly the last entry (`pop()`); on an empty
array it fails with `No KMS configuration found` (the spec's
`NoKmsConfiguration`). -/
theorem c2_last_entry_selected
    (parseKmsJson : List Nat → Except String (List KmsKeyConfiguration))
    (verify : List Nat → List Nat → Except String Unit)
    (from_encoded_config : List Nat → Except String ClientRequest)
    (config cert : List Nat) (l : List KmsKeyConfiguration)
    (hparse : parseKmsJson config = .ok l) :
    (l = [] →
      ClientRequest.from_kms_config parseKmsJson verify from_encoded_config config cert
        = .error .noKmsConfiguration)
    ∧ (∀ init entry, l = init ++ [entry] →
      ClientRequest.from_kms_config parseKmsJson verify from_encoded_config config cert
        = processKmsEntry verify from_encoded_config entry cert) := by
  constructor
  · rintro rfl
    simp [ClientRequest.from_kms_config, hparse]
  · rintro init entry rfl
    simp [ClientRequest.from_kms_config, hparse, List.getLast?_concat]

/-- Witness for C2: with a two-entry array the second (last) entry is
the one verified and decoded. -/
theorem c2_last_entry_selected_witness :
    ClientRequest.from_kms_config
        (fun _ => .ok [⟨strBytes "00", strBytes "r0"⟩, ⟨strBytes "11", strBytes "r1"⟩])
        (fun _ _ => .ok ()) (fun c => .ok ⟨c⟩) (strBytes "[]") (strBytes "cert")
      = processKmsEntry (fun _ _ => .ok ()) (fun c => .ok ⟨c⟩)
          ⟨strBytes "11", strBytes "r1"⟩ (strBytes "cert") :=
  (c2_last_entry_selected
      (fun _ => .ok [⟨strBytes "00", strBytes "r0"⟩, ⟨strBytes "11", strBytes "r1"⟩])
      (fun _ _ => .ok ()) (fun c => .ok ⟨c⟩) (strBytes "[]") (strBytes "cert")
      [⟨strBytes "00", strBytes "r0"⟩, ⟨strBytes "11", strBytes "r1"⟩] rfl).2
    [⟨strBytes "00", strBytes "r0"⟩] ⟨strBytes "11", strBytes "r1"⟩ rfl

/-- Errors of the client builder path: `configExpected` is the
`config expected` error of `create_request_from_encoded_config_list`
(the spec's `MissingConfiguration`); the other constructors wrap
failures of the KMS path and of the ohttp capability. -/
inductive BuildError where
  | configExpected
  | kmsFailure (e : String)
  | ohttpError (e : String)
  deriving DecidableEq, Repr

/-- `create_request_from_encoded_config_list`
(`src/ohttp-client/src/lib.rs:243-249`): `config expected` when no
static config was supplied, otherwise the ohttp list constructor on the
hex-decoded bytes. -/
def create_request_from_encoded_config_list
    (from_encoded_config_list : List Nat → Except String ClientRequest)
    (config : Option (List Nat)) : Except BuildError ClientRequest :=
  match config with
  | none => .error .configExpected
  | some c =>
    match from_encoded_config_list c with
    | .error e => .error (.ohttpError e)
    | .ok req => .ok req

/-- The builder state (`OhttpClientBuilder`,
`src/ohttp-client/src/lib.rs:431-436`): optional KMS URL, optional KMS
certificate path, optional static config bytes. -/
structure OhttpClientBuilder where
  kms_url : Option (List Nat)
  kms_cert : Option (List Nat)
  config : Option (List Nat)
  deriving DecidableEq, Repr

/-- `OhttpClientBuilder::build` (`src/ohttp-client/src/lib.rs:462-481`):
`if let (Some(kms_url), Some(kms_cert))` takes the KMS path
(`create_request_from_kms_config`, a capability parameter here);
otherwise the static-config path. -/
def OhttpClientBuilder.build
    (create_request_from_kms_config : List Nat → List Nat → Except BuildError ClientRequest)
    (from_encoded_config_list : List Nat → Except String ClientRequest)
    (b : OhttpClientBuilder) : Except BuildError ClientRequest :=
  match b.kms_url, b.kms_cert with
  | some kms_url, some kms_cert => create_request_from_kms_config kms_url kms_cert
  | _, _ =>
    create_request_from_encoded_config_list from_encoded_config_list b.config

/-- **C10**: `build` takes the KMS path exactly when both `kms_url` and
`kms_cert` are set; with either of the two missing it silently takes
the static-config path (the KMS capability is never consulted), and if
no static config was supplied either it fails with the bare
`config expected` error, which carries no mention of the partially
supplied KMS parameters. -/
theorem c10_kms_path_selection
    (create_request_from_kms_config : List Nat → List Nat → Except BuildError ClientRequest)
    (from_encoded_config_list : List Nat → Except String ClientRequest)
    (b : OhttpClientBuilder) :
    (∀ url cert, b.kms_url = some url → b.kms_cert = some cert →
      OhttpClientBuilder.build create_request_from_kms_config from_encoded_config_list b
        = create_request_from_kms_config url cert)
    ∧ (b.kms_url = none ∨ b.kms_cert = none →
      OhttpClientBuilder.build create_request_from_kms_config from_encoded_config_list b
        = create_request_from_encoded_config_list from_encoded_config_list b.config)
    ∧ (b.kms_url = none ∨ b.kms_cert = none → b.config = none →
      OhttpClientBuilder.build create_request_from_kms_config from_encoded_config_list b
        = .error .configExpected) := by
  obtain ⟨ku, kc, cfg⟩ := b
  refine ⟨?_, ?_, ?_⟩
  · rintro url cert rfl rfl
    rfl
  · rintro (rfl | rfl)
    · cases kc <;> simp [OhttpClientBuilder.build]
    · cases ku <;> simp [OhttpClientBuilder.build]
  · rintro h rfl
    rcases h with rfl | rfl
    · cases kc <;>
        simp [OhttpClientBuilder.build, create_request_from_encoded_config_list]
    · cases ku <;>
        simp [OhttpClientBuilder.build, create_request_from_encoded_config_list]

/-- Witness for C10: a builder with only `kms_url` set and no static
config fails with the bare `config expected` error. -/
theorem c10_kms_path_selection_witness :
    OhttpClientBuilder.build (fun _ _ => .error (.kmsFailure "unused"))
        (fun c => .ok ⟨c⟩) ⟨some (strBytes "https://kms"), none, none⟩
      = .error .configExpected :=
  (c10_kms_path_selection (fun _ _ => .error (.kmsFailure "unused"))
      (fun c => .ok ⟨c⟩) ⟨some (strBytes "https://kms"), none, none⟩).2.2
    (Or.inr rfl) rfl

end AttestedOhttpClient
